import Mathlib

/-!
Shallow embedding of `src/salesforce_utils.py` (PRavator repository).

The module wraps a Salesforce client.  The remote collaborator exposes one
logical operation per object type,
`create(objectType, fields) -> {success, id?, errors?}`; we model each
`create` endpoint as a function from the payload record to a response
record.  Python truthiness of `result.get("success")` is modelled with
`Option Bool` (a missing key behaves like `False`).  Each embedded
operation returns the ordered trace of payloads passed to the remote
`create` endpoint together with an `Except` outcome, so that both the
remote side effects and the raised exceptions of the original code are
visible in the result.
-/

/-- Payload of a `FieldPermissions.create` call, as built in
`set_field_permissions` (lines 103-108 of the source). -/
structure FieldPermission where
  Field : String
  PermissionsRead : Bool
  PermissionsEdit : Bool
  ParentId : String
deriving Repr, DecidableEq

/-- Payload of a `PermissionSet.create` call, as built in
`create_permission_set` (lines 56-62 of the source). -/
structure PermissionSetPayload where
  Name : String
  Label : String
  Description : String
deriving Repr, DecidableEq

/-- Response payload of a remote `create` call:
`{success: bool, id?: string, errors?: list}`.  `success` is `Option Bool`
because the code reads it with `result.get("success")`, where a missing
key is falsy; `errors` holds the string rendering of the reported error
list, absent when the key is missing. -/
structure CreateResult where
  success : Option Bool
  id : Option String
  errors : Option String
deriving Repr, DecidableEq

/-- Python truthiness of `result.get("success")`: `None` (missing key) and
`False` are falsy. -/
def isTruthy : Option Bool → Bool
  | some b => b
  | none => false

/-- Python string interpolation of `result.get('errors')`: a missing key
prints as `None`. -/
def pyStr : Option String → String
  | some s => s
  | none => "None"

/-- Errors raised by the module: `ValueError` for local validation and a
generic `Exception` carrying the formatted message. -/
inductive SfError where
  | valueError (msg : String)
  | exception (msg : String)
deriving Repr, DecidableEq

/-- The field-permission payload built for one field in the loop body of
`set_field_permissions`:
`Field = f"{object_name}.{field}"`,
`PermissionsRead = True if access_level in ["read", "edit"] else False`,
`PermissionsEdit = True if access_level == "edit" else False`,
`ParentId = permission_set_name`. -/
def mkFieldPermission (object_name field access_level permission_set_name : String) :
    FieldPermission :=
  { Field := object_name ++ "." ++ field
    PermissionsRead := ["read", "edit"].contains access_level
    PermissionsEdit := access_level == "edit"
    ParentId := permission_set_name }

/-- The loop of `set_field_permissions` (lines 102-117): for each field in
order, build the payload, issue `sf.FieldPermissions.create`, continue on
truthy `success`, otherwise raise immediately.  Returns the trace of
issued create calls (the failing call included, since it was issued before
its response was inspected) and the outcome. -/
def setFieldPermissionsLoop (sfCreate : FieldPermission → CreateResult)
    (permission_set_name object_name access_level : String) :
    List String → List FieldPermission × Except SfError Unit
  | [] => ([], Except.ok ())
  | field :: rest =>
    let field_permission :=
      mkFieldPermission object_name field access_level permission_set_name
    let result := sfCreate field_permission
    if isTruthy result.success then
      let r := setFieldPermissionsLoop sfCreate permission_set_name object_name
        access_level rest
      (field_permission :: r.1, r.2)
    else
      ([field_permission],
        Except.error (SfError.exception
          ("Failed to set permissions for field " ++ field ++ ": "
            ++ pyStr result.errors)))

/-- `set_field_permissions(sf, permission_set_name, object_name, fields,
access_level)` (lines 75-123): validate `access_level` before any remote
call, raising `ValueError` when it is outside `["read", "edit"]`; then run
the per-field loop.  Python returns `None` on success, modelled as
`Except.ok ()`. -/
def set_field_permissions (sfCreate : FieldPermission → CreateResult)
    (permission_set_name object_name : String) (fields : List String)
    (access_level : String) : List FieldPermission × Except SfError Unit :=
  if (["read", "edit"].contains access_level) = false then
    ([], Except.error
      (SfError.valueError "access_level must be either 'read' or 'edit'"))
  else
    setFieldPermissionsLoop sfCreate permission_set_name object_name
      access_level fields

/-- The permission-set payload synthesized by `create_permission_set`
(lines 53-61): `Name = f"{object_name}_{record_type}_Permissions"`,
`Label = f"{object_name} {record_type} Permissions"`,
`Description = f"Permission set for {object_name} with record type
{record_type}"`. -/
def mkPermissionSetPayload (object_name record_type : String) :
    PermissionSetPayload :=
  { Name := object_name ++ "_" ++ record_type ++ "_Permissions"
    Label := object_name ++ " " ++ record_type ++ " Permissions"
    Description := "Permission set for " ++ object_name
      ++ " with record type " ++ record_type }

/-- `create_permission_set(sf, object_name, record_type)` (lines 37-72):
issue a single `sf.PermissionSet.create` with the synthesized payload; on
truthy `success` return `result.get("id")`, otherwise raise an `Exception`
whose message embeds `result.get('errors')`. -/
def create_permission_set (sfCreate : PermissionSetPayload → CreateResult)
    (object_name record_type : String) :
    List PermissionSetPayload × Except SfError (Option String) :=
  let payload := mkPermissionSetPayload object_name record_type
  let result := sfCreate payload
  if isTruthy result.success then
    ([payload], Except.ok result.id)
  else
    ([payload], Except.error (SfError.exception
      ("Failed to create permission set: " ++ pyStr result.errors)))

/-- `create_edit_permission_set(sf, object_name)` (lines 126-141): calls
`create_permission_set(sf, object_name, "edit")` and returns its result. -/
def create_edit_permission_set (sfCreate : PermissionSetPayload → CreateResult)
    (object_name : String) :
    List PermissionSetPayload × Except SfError (Option String) :=
  create_permission_set sfCreate object_name "edit"

/-- `connect_to_salesforce(username, password, security_token, domain)`
(lines 7-34): the call to the `Salesforce` constructor is modelled by its
outcome `authenticate` (a session or an authentication error).  The
`try/except` logs and re-raises the same exception via a bare `raise`, so
the outcome passes through unchanged. -/
def connect_to_salesforce {Session : Type} (authenticate : Except SfError Session) :
    Except SfError Session :=
  match authenticate with
  | Except.ok sf => Except.ok sf
  | Except.error e => Except.error e

/-- `s` contains `t` as a substring. -/
def containsStr (s t : String) : Prop :=
  ∃ pre post, s = pre ++ t ++ post

/-- A remote stub whose `create` always reports success, used by witness
theorems. -/
def allOkField : FieldPermission → CreateResult :=
  fun _ => { success := some true, id := some "0PS000000000001", errors := none }

/-- A remote stub for `PermissionSet.create` that always reports success. -/
def allOkPermissionSet : PermissionSetPayload → CreateResult :=
  fun _ => { success := some true, id := some "0PS000000000002", errors := none }

/-- C7: `create_edit_permission_set(sf, object_name)` is behaviorally
identical to `create_permission_set(sf, object_name, "edit")`: same remote
calls, same return value, same raised errors, for every remote behaviour
`sfCreate` and every `object_name`. -/
theorem create_edit_permission_set_equiv
    (sfCreate : PermissionSetPayload → CreateResult) (object_name : String) :
    create_edit_permission_set sfCreate object_name =
      create_permission_set sfCreate object_name "edit" := rfl

/-- C9: `connect_to_salesforce` either returns the session handle produced
by the authenticator or re-raises the authenticator's error unchanged: its
outcome is exactly the authenticator's outcome. -/
theorem connect_to_salesforce_passthrough {Session : Type}
    (authenticate : Except SfError Session) :
    connect_to_salesforce authenticate = authenticate := by
  cases authenticate <;> rfl

/-- C10: with an empty field list and a valid access level, every call of
`set_field_permissions` issues zero remote create calls and succeeds
(Python returns `None`). -/
theorem set_field_permissions_empty_fields
    (sfCreate : FieldPermission → CreateResult)
    (permission_set_name object_name access_level : String)
    (h : access_level = "read" ∨ access_level = "edit") :
    set_field_permissions sfCreate permission_set_name object_name []
      access_level = ([], Except.ok ()) := by
  rcases h with h | h <;> subst h <;> rfl

/-- Witness for C10 at a concrete input. -/
theorem set_field_permissions_empty_fields_witness :
    set_field_permissions allOkField "0PS1" "Contact" [] "read" =
      ([], Except.ok ()) :=
  set_field_permissions_empty_fields allOkField "0PS1" "Contact" "read"
    (Or.inl rfl)

/-- C2: when `access_level` is neither `"read"` nor `"edit"`,
`set_field_permissions` raises `ValueError` before issuing any remote
create call: the trace of issued calls is empty. -/
theorem set_field_permissions_invalid_level_no_calls
    (sfCreate : FieldPermission → CreateResult)
    (permission_set_name object_name : String) (fields : List String)
    (access_level : String)
    (h1 : access_level ≠ "read") (h2 : access_level ≠ "edit") :
    set_field_permissions sfCreate permission_set_name object_name fields
      access_level =
      ([], Except.error
        (SfError.valueError "access_level must be either 'read' or 'edit'")) := by
  unfold set_field_permissions
  simp [List.contains, h1, h2]

/-- Witness for C2 at `access_level = "bogus"`. -/
theorem set_field_permissions_invalid_level_no_calls_witness :
    set_field_permissions allOkField "0PS1" "Contact" ["Email", "Phone"]
      "bogus" =
      ([], Except.error
        (SfError.valueError "access_level must be either 'read' or 'edit'")) :=
  set_field_permissions_invalid_level_no_calls allOkField "0PS1" "Contact"
    ["Email", "Phone"] "bogus" (by decide) (by decide)

/-- Every payload in the trace of the per-field loop carries the read/edit
flags computed from `access_level` alone, independently of the remote
behaviour and of where the loop stops. -/
theorem setFieldPermissionsLoop_trace_mem
    (sfCreate : FieldPermission → CreateResult)
    (ps obj lvl : String) (fields : List String) (fp : FieldPermission)
    (hmem : fp ∈ (setFieldPermissionsLoop sfCreate ps obj lvl fields).1) :
    fp.PermissionsRead = (["read", "edit"].contains lvl) ∧
    fp.PermissionsEdit = (lvl == "edit") := by
  induction fields with
  | nil => simp [setFieldPermissionsLoop] at hmem
  | cons f rest ih =>
    simp only [setFieldPermissionsLoop] at hmem
    split at hmem
    · rcases List.mem_cons.mp hmem with h | h
      · subst h; exact ⟨rfl, rfl⟩
      · exact ih h
    · rcases List.mem_cons.mp hmem with h | h
      · subst h; exact ⟨rfl, rfl⟩
      · simp at h

/-- For a valid access level the validation guard passes and
`set_field_permissions` is the per-field loop. -/
theorem set_field_permissions_valid_eq_loop
    (sfCreate : FieldPermission → CreateResult) (ps obj : String)
    (fields : List String) (lvl : String)
    (h : lvl = "read" ∨ lvl = "edit") :
    set_field_permissions sfCreate ps obj fields lvl =
      setFieldPermissionsLoop sfCreate ps obj lvl fields := by
  rcases h with h | h <;> subst h <;> rfl

/-- C6: with `access_level = "read"`, every field-permission create call
issued by `set_field_permissions` carries `PermissionsRead = true` and
`PermissionsEdit = false`, for every remote behaviour and field list. -/
theorem set_field_permissions_read_flags
    (sfCreate : FieldPermission → CreateResult)
    (permission_set_name object_name : String) (fields : List String) :
    ((set_field_permissions sfCreate permission_set_name object_name fields
        "read").1.all
      (fun fp => fp.PermissionsRead && !fp.PermissionsEdit)) = true := by
  rw [set_field_permissions_valid_eq_loop sfCreate permission_set_name
    object_name fields "read" (Or.inl rfl), List.all_eq_true]
  intro fp hfp
  obtain ⟨hr, he⟩ := setFieldPermissionsLoop_trace_mem sfCreate
    permission_set_name object_name "read" fields fp hfp
  rw [hr, he]
  decide

/-- C8: for every call of `set_field_permissions` that passes validation,
each created payload has `PermissionsRead = true`; with `"edit"` both
flags are set, with `"read"` the edit flag is cleared. -/
theorem set_field_permissions_flag_invariant
    (sfCreate : FieldPermission → CreateResult)
    (permission_set_name object_name access_level : String)
    (fields : List String)
    (h : access_level = "read" ∨ access_level = "edit") :
    ((set_field_permissions sfCreate permission_set_name object_name fields
        access_level).1.all (fun fp => fp.PermissionsRead)) = true ∧
    (access_level = "edit" →
      ((set_field_permissions sfCreate permission_set_name object_name fields
          access_level).1.all (fun fp => fp.PermissionsEdit)) = true) ∧
    (access_level = "read" →
      ((set_field_permissions sfCreate permission_set_name object_name fields
          access_level).1.all (fun fp => !fp.PermissionsEdit)) = true) := by
  rw [set_field_permissions_valid_eq_loop sfCreate permission_set_name
    object_name fields access_level h]
  refine ⟨?_, ?_, ?_⟩
  · rw [List.all_eq_true]
    intro fp hfp
    obtain ⟨hr, _⟩ := setFieldPermissionsLoop_trace_mem sfCreate
      permission_set_name object_name access_level fields fp hfp
    rcases h with h | h <;> subst h <;> rw [hr] <;> decide
  · intro he
    subst he
    rw [List.all_eq_true]
    intro fp hfp
    obtain ⟨_, hedit⟩ := setFieldPermissionsLoop_trace_mem sfCreate
      permission_set_name object_name "edit" fields fp hfp
    rw [hedit]
    decide
  · intro he
    subst he
    rw [List.all_eq_true]
    intro fp hfp
    obtain ⟨_, hedit⟩ := setFieldPermissionsLoop_trace_mem sfCreate
      permission_set_name object_name "read" fields fp hfp
    rw [hedit]
    decide

/-- Witness for C8 at a concrete input. -/
theorem set_field_permissions_flag_invariant_witness :
    ((set_field_permissions allOkField "0PS1" "Contact" ["Email"]
        "edit").1.all (fun fp => fp.PermissionsRead)) = true ∧
    ("edit" = "edit" →
      ((set_field_permissions allOkField "0PS1" "Contact" ["Email"]
          "edit").1.all (fun fp => fp.PermissionsEdit)) = true) ∧
    ("edit" = "read" →
      ((set_field_permissions allOkField "0PS1" "Contact" ["Email"]
          "edit").1.all (fun fp => !fp.PermissionsEdit)) = true) :=
  set_field_permissions_flag_invariant allOkField "0PS1" "Contact" "edit"
    ["Email"] (Or.inr rfl)

/-- C1: with permission-set id `psId`, object `"Contact"`, fields
`["Email", "Phone"]` and access level `"edit"`, against a remote whose
create calls report success, `set_field_permissions` issues exactly two
field-permission create calls, in list order, with
`Field = "Contact.Email"` then `Field = "Contact.Phone"`, each carrying
`PermissionsRead = true`, `PermissionsEdit = true` and `ParentId = psId`. -/
theorem set_field_permissions_edit_two_fields
    (sfCreate : FieldPermission → CreateResult) (psId : String)
    (h : ∀ fp, isTruthy (sfCreate fp).success = true) :
    set_field_permissions sfCreate psId "Contact" ["Email", "Phone"]
      "edit" =
      ([{ Field := "Contact.Email", PermissionsRead := true,
          PermissionsEdit := true, ParentId := psId },
        { Field := "Contact.Phone", PermissionsRead := true,
          PermissionsEdit := true, ParentId := psId }],
       Except.ok ()) := by
  simp [set_field_permissions, setFieldPermissionsLoop, h, mkFieldPermission]

/-- Witness for C1 with an always-successful remote. -/
theorem set_field_permissions_edit_two_fields_witness :
    set_field_permissions allOkField "0PS1" "Contact" ["Email", "Phone"]
      "edit" =
      ([{ Field := "Contact.Email", PermissionsRead := true,
          PermissionsEdit := true, ParentId := "0PS1" },
        { Field := "Contact.Phone", PermissionsRead := true,
          PermissionsEdit := true, ParentId := "0PS1" }],
       Except.ok ()) :=
  set_field_permissions_edit_two_fields allOkField "0PS1" (fun _ => rfl)

/-- C3: if the create call for the second of three fields reports failure
while the first succeeds, `set_field_permissions` issues the first two
create calls (the first is not rolled back), never attempts the third, and
raises an exception naming the failing field. -/
theorem set_field_permissions_second_failure_aborts
    (sfCreate : FieldPermission → CreateResult)
    (psId obj f1 f2 f3 : String)
    (h1 : isTruthy (sfCreate (mkFieldPermission obj f1 "edit" psId)).success
      = true)
    (h2 : isTruthy (sfCreate (mkFieldPermission obj f2 "edit" psId)).success
      = false) :
    set_field_permissions sfCreate psId obj [f1, f2, f3] "edit" =
      ([mkFieldPermission obj f1 "edit" psId,
        mkFieldPermission obj f2 "edit" psId],
       Except.error (SfError.exception
         ("Failed to set permissions for field " ++ f2 ++ ": "
           ++ pyStr (sfCreate (mkFieldPermission obj f2 "edit" psId)).errors))) := by
  simp [set_field_permissions, setFieldPermissionsLoop, h1, h2]

/-- A remote stub that rejects the `Contact.Phone` field permission and
accepts every other payload, used by the witness for the abort-on-failure
behaviour. -/
def failOnPhone : FieldPermission → CreateResult := fun fp =>
  if fp.Field == "Contact.Phone" then
    { success := some false, id := none,
      errors := some "[FIELD_INTEGRITY_EXCEPTION]" }
  else
    { success := some true, id := some "01k000000000001", errors := none }

/-- Witness for C3: the second of three fields fails, the first call was
issued, the third never is. -/
theorem set_field_permissions_second_failure_aborts_witness :
    set_field_permissions failOnPhone "0PS1" "Contact"
      ["Email", "Phone", "Fax"] "edit" =
      ([mkFieldPermission "Contact" "Email" "edit" "0PS1",
        mkFieldPermission "Contact" "Phone" "edit" "0PS1"],
       Except.error (SfError.exception
         ("Failed to set permissions for field " ++ "Phone" ++ ": "
           ++ pyStr (failOnPhone
               (mkFieldPermission "Contact" "Phone" "edit" "0PS1")).errors))) :=
  set_field_permissions_second_failure_aborts failOnPhone "0PS1" "Contact"
    "Email" "Phone" "Fax" (by decide) (by decide)

/-- C4: `create_permission_set` on `"Account"`/`"edit"` issues a single
create call whose payload has `Name = "Account_edit_Permissions"`,
`Label = "Account edit Permissions"` and a `Description` containing both
`"Account"` and `"edit"`; when the response reports success it returns
exactly the `id` field of the response payload. -/
theorem create_permission_set_account_edit
    (sfCreate : PermissionSetPayload → CreateResult)
    (h : isTruthy
      (sfCreate (mkPermissionSetPayload "Account" "edit")).success = true) :
    create_permission_set sfCreate "Account" "edit" =
      ([mkPermissionSetPayload "Account" "edit"],
        Except.ok (sfCreate (mkPermissionSetPayload "Account" "edit")).id) ∧
    (mkPermissionSetPayload "Account" "edit").Name
      = "Account_edit_Permissions" ∧
    (mkPermissionSetPayload "Account" "edit").Label
      = "Account edit Permissions" ∧
    containsStr (mkPermissionSetPayload "Account" "edit").Description
      "Account" ∧
    containsStr (mkPermissionSetPayload "Account" "edit").Description
      "edit" := by
  refine ⟨?_, by decide, by decide,
    ⟨"Permission set for ", " with record type edit", by decide⟩,
    ⟨"Permission set for Account with record type ", "", by decide⟩⟩
  simp [create_permission_set, h]

/-- Witness for C4 with an always-successful remote. -/
theorem create_permission_set_account_edit_witness :
    create_permission_set allOkPermissionSet "Account" "edit" =
      ([mkPermissionSetPayload "Account" "edit"],
        Except.ok (allOkPermissionSet
          (mkPermissionSetPayload "Account" "edit")).id) ∧
    (mkPermissionSetPayload "Account" "edit").Name
      = "Account_edit_Permissions" ∧
    (mkPermissionSetPayload "Account" "edit").Label
      = "Account edit Permissions" ∧
    containsStr (mkPermissionSetPayload "Account" "edit").Description
      "Account" ∧
    containsStr (mkPermissionSetPayload "Account" "edit").Description
      "edit" :=
  create_permission_set_account_edit allOkPermissionSet rfl

/-- C5: whenever the response payload of the single create call is not
truthy on `success` (false or missing), `create_permission_set` raises an
exception whose message contains the payload's `errors` field. -/
theorem create_permission_set_failure_raises
    (sfCreate : PermissionSetPayload → CreateResult)
    (object_name record_type : String)
    (h : isTruthy
      (sfCreate (mkPermissionSetPayload object_name record_type)).success
      = false) :
    ∃ msg,
      create_permission_set sfCreate object_name record_type =
        ([mkPermissionSetPayload object_name record_type],
          Except.error (SfError.exception msg)) ∧
      containsStr msg
        (pyStr (sfCreate
          (mkPermissionSetPayload object_name record_type)).errors) := by
  refine ⟨"Failed to create permission set: "
      ++ pyStr (sfCreate
        (mkPermissionSetPayload object_name record_type)).errors,
    ?_, ⟨"Failed to create permission set: ", "", ?_⟩⟩
  · simp [create_permission_set, h]
  · rw [String.append_empty]

/-- A remote stub for `PermissionSet.create` that reports logical failure
with a server error list. -/
def failPermissionSet : PermissionSetPayload → CreateResult :=
  fun _ => { success := some false, id := none,
             errors := some "[DUPLICATE_DEVELOPER_NAME]" }

/-- Witness for C5 with a remote that reports `success: false`. -/
theorem create_permission_set_failure_raises_witness :
    ∃ msg,
      create_permission_set failPermissionSet "Account" "edit" =
        ([mkPermissionSetPayload "Account" "edit"],
          Except.error (SfError.exception msg)) ∧
      containsStr msg
        (pyStr (failPermissionSet
          (mkPermissionSetPayload "Account" "edit")).errors) :=
  create_permission_set_failure_raises failPermissionSet "Account" "edit" rfl
